import Mathlib

/-!
Verification of the deterministic analytics-and-ranking pipeline of the
practice-problem recommendation system (Complexity Ordering, Scorer,
Performance Analyzer, Recommendation Engine) and of two frontend helpers
(`getLeaderboard` in the API service module, `getDifficultyProgress` in the
StatsDashboard component).

The backend core (scorer, analyzer, recommender) is not shipped in this
repository snapshot — only its documentation is — so those components are
modelled from the specification text.  The frontend helpers are embedded
directly from the JavaScript sources.
-/

namespace RecSys

/-- Difficulty levels of problems, per the data model (easy/medium/hard). -/
inductive Difficulty where
  | easy
  | medium
  | hard
deriving DecidableEq, Repr

/-- Numeric order of difficulty levels: easy < medium < hard. -/
def diffRank : Difficulty → Nat
  | .easy => 0
  | .medium => 1
  | .hard => 2

/-- The next difficulty level above the given one, if any. -/
def nextDifficulty : Difficulty → Option Difficulty
  | .easy => some .medium
  | .medium => some .hard
  | .hard => none

/-- The canonical complexity ladder, best to worst. -/
def complexityLadder : List String :=
  ["O(1)", "O(log n)", "O(n)", "O(n log n)", "O(n²)", "O(n² log n)",
   "O(n³)", "O(2ⁿ)", "O(n!)"]

/-- Modelled from the spec: `rank(complexity_string) → integer` of the
Complexity Ordering component (the backend `complexity` module is absent
from this snapshot).  Positions on the canonical ladder
`O(1) < O(log n) < O(n) < O(n log n) < O(n²) < O(n² log n) < O(n³) < O(2ⁿ) < O(n!)`
get ranks 0..8; every unrecognized string maps to the sentinel rank 9,
one worse than `O(n!)`. -/
def rank (s : String) : Nat :=
  if s = "O(1)" then 0
  else if s = "O(log n)" then 1
  else if s = "O(n)" then 2
  else if s = "O(n log n)" then 3
  else if s = "O(n²)" then 4
  else if s = "O(n² log n)" then 5
  else if s = "O(n³)" then 6
  else if s = "O(2ⁿ)" then 7
  else if s = "O(n!)" then 8
  else 9

/-- Modelled from the spec: `levels_worse(actual, expected) = max(0, rank(actual) − rank(expected))`
(natural subtraction realizes the `max 0`). -/
def levelsWorse (actual expected : String) : Nat :=
  rank actual - rank expected

/-- One graded attempt, per the data model. -/
structure Submission where
  user_id : String
  problem_id : String
  topic : String
  difficulty : Difficulty
  passed : Bool
  attempts : Nat
  time_taken_minutes : ℚ
  reported_complexity : String
  submitted_at : Nat
deriving DecidableEq, Repr

/-- One catalog entry, per the data model. -/
structure ProblemMeta where
  problem_id : String
  topic : String
  difficulty : Difficulty
  expected_complexity : String
  expected_time_minutes : ℚ
deriving DecidableEq, Repr

/-- The derived score record of one submission, per the data model. -/
structure ScoreRecord where
  correctness : ℚ
  efficiency : ℚ
  speed : ℚ
  attempts_score : ℚ
  total : ℤ
deriving DecidableEq, Repr

/-- Modelled from the spec: the Scorer's efficiency component (backend
`scorer` module absent).  Maps levels-worse `0 → 1.0, 1 → 0.8, 2 → 0.5,
3 → 0.3, ≥4 → 0.1`; a failed submission gets `0.0` regardless. -/
def efficiencyScore (passed : Bool) (lw : Nat) : ℚ :=
  if passed then
    if lw = 0 then 1
    else if lw = 1 then 4/5
    else if lw = 2 then 1/2
    else if lw = 3 then 3/10
    else 1/10
  else 0

/-- Modelled from the spec: the Scorer's speed component as a function of
the time ratio.  `ratio ≤ 0.5 → 1.0`; linear `1.0→0.8` on `(0.5,1]`;
linear `0.8→0.5` on `(1,2]`; beyond `2` a linear descent clamped at the
`0.1` floor (the spec leaves the last slope open; a fixed slope of `1/5`
is chosen, which preserves the anchors and monotonicity). -/
def speedScore (r : ℚ) : ℚ :=
  if r ≤ 1/2 then 1
  else if r ≤ 1 then 1 - (2/5) * (r - 1/2)
  else if r ≤ 2 then 4/5 - (3/10) * (r - 1)
  else max (1/10) (1/2 - (1/5) * (r - 2))

/-- Modelled from the spec: the Scorer's attempts component,
`1 attempt→1.0, 2→0.9, 3→0.7, 4→0.5, ≥5→0.3`; a missing attempt count is
treated as 1. -/
def attemptsScore (n : Nat) : ℚ :=
  if n ≤ 1 then 1
  else if n = 2 then 9/10
  else if n = 3 then 7/10
  else if n = 4 then 1/2
  else 3/10

/-- Modelled from the spec: the time ratio used by the speed score:
`time_taken_minutes / expected_time_minutes`, treated as `1` when
`expected_time_minutes ≤ 0`. -/
def timeRatio (s : Submission) (p : ProblemMeta) : ℚ :=
  if p.expected_time_minutes ≤ 0 then 1
  else s.time_taken_minutes / p.expected_time_minutes

/-- Modelled from the spec: the Scorer (backend `scorer` module absent).
Converts one Submission and its matching ProblemMeta into a ScoreRecord with
`total = round(100·(0.35·correctness + 0.30·efficiency + 0.20·speed + 0.15·attempts_score))`
clamped to `[0,100]`. -/
def scoreSubmission (s : Submission) (p : ProblemMeta) : ScoreRecord :=
  let c : ℚ := if s.passed then 1 else 0
  let e : ℚ := efficiencyScore s.passed (levelsWorse s.reported_complexity p.expected_complexity)
  let sp : ℚ := speedScore (timeRatio s p)
  let a : ℚ := attemptsScore s.attempts
  let w : ℚ := 35/100 * c + 30/100 * e + 20/100 * sp + 15/100 * a
  { correctness := c
    efficiency := e
    speed := sp
    attempts_score := a
    total := max 0 (min 100 (round (100 * w))) }

/-- Skill levels, per the data model. -/
inductive SkillLevel where
  | beginner
  | intermediate
  | advanced
deriving DecidableEq, Repr

/-- Per-topic performance profile, per the data model (with the mean attempt
count, which the mastery thresholds of the Recommendation Engine consult). -/
structure TopicProfile where
  topic : String
  attempted : Nat
  solved : Nat
  accuracy : ℚ
  average_score : ℚ
  average_efficiency : ℚ
  avg_attempts : ℚ
  easyCount : Nat
  mediumCount : Nat
  hardCount : Nat
deriving DecidableEq, Repr

/-- The whole-user skill profile, per the data model. -/
structure SkillProfile where
  topics : List TopicProfile
  overall_score : ℚ
  skill_level : SkillLevel
  weak_topics : List String
  strong_topics : List String
  untried_topics : List String
deriving DecidableEq, Repr

/-- Modelled from the spec: the weakness test of the Analyzer — a topic is
weak iff `attempted ≥ 1` and (`accuracy < 0.5` or `average_score < 40`). -/
def isWeak (tp : TopicProfile) : Bool :=
  decide (1 ≤ tp.attempted ∧ (tp.accuracy < 1/2 ∨ tp.average_score < 40))

/-- Modelled from the spec: the strength test of the Analyzer — a topic is
strong iff `accuracy ≥ 0.7` and `average_score ≥ 70`. -/
def isStrong (tp : TopicProfile) : Bool :=
  decide ((7:ℚ)/10 ≤ tp.accuracy ∧ (70:ℚ) ≤ tp.average_score)

/-- Modelled from the spec: the per-topic accumulation of the Analyzer
(backend `analyzer` module absent).  `group` is the sub-history of one
topic; `solved` counts distinct passed problem ids. -/
def buildTopicProfile (t : String) (group : List (Submission × ProblemMeta)) :
    TopicProfile :=
  let attempted := group.length
  let solvedIds :=
    ((group.filter (fun g => g.1.passed)).map (fun g => g.1.problem_id)).dedup
  let totals := group.map (fun g => ((scoreSubmission g.1 g.2).total : ℚ))
  let effs := group.map (fun g => (scoreSubmission g.1 g.2).efficiency)
  let atts := group.map (fun g => (g.1.attempts : ℚ))
  { topic := t
    attempted := attempted
    solved := solvedIds.length
    accuracy := if attempted = 0 then 0 else (solvedIds.length : ℚ) / attempted
    average_score := if attempted = 0 then 0 else totals.sum / attempted
    average_efficiency := if attempted = 0 then 0 else effs.sum / attempted
    avg_attempts := if attempted = 0 then 0 else atts.sum / attempted
    easyCount := (group.filter (fun g => g.1.difficulty = .easy)).length
    mediumCount := (group.filter (fun g => g.1.difficulty = .medium)).length
    hardCount := (group.filter (fun g => g.1.difficulty = .hard)).length }

/-- Modelled from the spec: skill-level thresholds on the overall score:
`[0,40) → beginner`, `[40,70) → intermediate`, otherwise advanced. -/
def skillLevelOf (overall : ℚ) : SkillLevel :=
  if overall < 40 then .beginner
  else if overall < 70 then .intermediate
  else .advanced

/-- Modelled from the spec: the grouping step of the Analyzer — one
TopicProfile per distinct topic of the history, in first-seen order. -/
def analyzeTopics (history : List (Submission × ProblemMeta)) :
    List TopicProfile :=
  ((history.map (fun g => g.1.topic)).dedup).map
    (fun t => buildTopicProfile t (history.filter (fun g => g.1.topic = t)))

/-- Modelled from the spec: the Performance Analyzer (backend `analyzer`
module absent).  Groups the history by topic, builds a TopicProfile per
attempted topic, takes the attempted-weighted mean of the topic average
scores as the overall score, and classifies weak/strong/untried topics. -/
def analyze (history : List (Submission × ProblemMeta))
    (catalog : List ProblemMeta) : SkillProfile :=
  let topicNames := (history.map (fun g => g.1.topic)).dedup
  let tps := analyzeTopics history
  let totalAttempted := (tps.map (fun tp => tp.attempted)).sum
  let overall : ℚ :=
    if totalAttempted = 0 then 0
    else (tps.map (fun tp => (tp.attempted : ℚ) * tp.average_score)).sum /
      (totalAttempted : ℚ)
  { topics := tps
    overall_score := overall
    skill_level := skillLevelOf overall
    weak_topics := (tps.filter isWeak).map (fun tp => tp.topic)
    strong_topics := (tps.filter isStrong).map (fun tp => tp.topic)
    untried_topics :=
      ((catalog.map (fun p => p.topic)).dedup).filter
        (fun t => decide (t ∉ topicNames)) }

/-- Reason codes attached to recommendations, per the data model. -/
inductive Reason where
  | weakness_reinforcement
  | progression
  | exploration
deriving DecidableEq, Repr

/-- One recommended problem, per the data model. -/
structure Recommendation where
  problem_id : String
  topic : String
  difficulty : Difficulty
  reason : Reason
  rank : Nat
deriving DecidableEq, Repr

/-- Lexicographic comparison of character lists by code point. -/
def lexLe : List Char → List Char → Bool
  | [], _ => true
  | _ :: _, [] => false
  | a :: as, b :: bs =>
    if a.val < b.val then true
    else if b.val < a.val then false
    else lexLe as bs

/-- Lexicographic comparison of strings by code point, used for the
deterministic tie-breaks of the Recommendation Engine. -/
def strLe (a b : String) : Bool := lexLe a.data b.data

/-- Insert into a list sorted by the Boolean comparator `le`. -/
def insertSorted (le : α → α → Bool) (x : α) : List α → List α
  | [] => [x]
  | y :: ys => if le x y then x :: y :: ys else y :: insertSorted le x ys

/-- Insertion sort by the Boolean comparator `le` (stable, deterministic). -/
def sortBy' (le : α → α → Bool) : List α → List α
  | [] => []
  | x :: xs => insertSorted le x (sortBy' le xs)

/-- Modelled from the spec: ordering of weak topics — ascending
`average_score`, ties by ascending `accuracy`, then lexicographic topic. -/
def weakOrder (a b : TopicProfile) : Bool :=
  if a.average_score ≠ b.average_score then decide (a.average_score ≤ b.average_score)
  else if a.accuracy ≠ b.accuracy then decide (a.accuracy ≤ b.accuracy)
  else strLe a.topic b.topic

/-- Modelled from the spec: ordering of strong topics — descending
`average_score`, ties by topic name. -/
def strongOrder (a b : TopicProfile) : Bool :=
  if a.average_score ≠ b.average_score then decide (b.average_score ≤ a.average_score)
  else strLe a.topic b.topic

/-- Modelled from the spec: the comfortable difficulty of a topic — the
easiest difficulty appearing in its difficulty distribution, or easy if
none attempted. -/
def comfortableDifficulty (tp : TopicProfile) : Difficulty :=
  if 0 < tp.easyCount then .easy
  else if 0 < tp.mediumCount then .medium
  else if 0 < tp.hardCount then .hard
  else .easy

/-- Modelled from the spec: the highest difficulty attempted in a topic. -/
def highestAttempted (tp : TopicProfile) : Difficulty :=
  if 0 < tp.hardCount then .hard
  else if 0 < tp.mediumCount then .medium
  else .easy

/-- Modelled from the spec: the mastery thresholds gating progression —
`easy → medium` needs `min_solved=5, min_accuracy=0.80, max_avg_attempts=2.0`;
`medium → hard` needs `min_solved=10, min_accuracy=0.70, max_avg_attempts=3.0`;
from hard there is no level above. -/
def masteryMet (tp : TopicProfile) : Bool :=
  match highestAttempted tp with
  | .easy => decide (5 ≤ tp.solved ∧ (4:ℚ)/5 ≤ tp.accuracy ∧ tp.avg_attempts ≤ 2)
  | .medium => decide (10 ≤ tp.solved ∧ (7:ℚ)/10 ≤ tp.accuracy ∧ tp.avg_attempts ≤ 3)
  | .hard => false

/-- Build a Recommendation (rank assigned later) from a catalog entry. -/
def mkRec (reason : Reason) (p : ProblemMeta) : Recommendation :=
  { problem_id := p.problem_id
    topic := p.topic
    difficulty := p.difficulty
    reason := reason
    rank := 0 }

/-- Modelled from the spec: strategy 1 candidates (weakness reinforcement) —
per weak topic, in weak order, up to 2 unsolved problems at or below the
comfortable difficulty. -/
def weaknessCands (tps : List TopicProfile) (catalog : List ProblemMeta)
    (solved : List String) : List Recommendation :=
  (sortBy' weakOrder (tps.filter isWeak)).flatMap (fun tp =>
    ((catalog.filter (fun p =>
        decide (p.topic = tp.topic) &&
        decide (diffRank p.difficulty ≤ diffRank (comfortableDifficulty tp)) &&
        !(solved.contains p.problem_id))).take 2).map
      (mkRec .weakness_reinforcement))

/-- Modelled from the spec: strategy 2 candidates (progression) — per strong
topic, in strong order, if the mastery threshold of its highest attempted
difficulty is met, one unsolved problem one level above. -/
def progressionCands (tps : List TopicProfile) (catalog : List ProblemMeta)
    (solved : List String) : List Recommendation :=
  (sortBy' strongOrder (tps.filter isStrong)).flatMap (fun tp =>
    match nextDifficulty (highestAttempted tp) with
    | none => []
    | some d =>
      if masteryMet tp then
        ((catalog.filter (fun p =>
            decide (p.topic = tp.topic) && decide (p.difficulty = d) &&
            !(solved.contains p.problem_id))).take 1).map (mkRec .progression)
      else [])

/-- Modelled from the spec: strategy 3 candidates (exploration) — per untried
topic in lexicographic order, one unsolved easy problem. -/
def explorationCands (untried : List String) (catalog : List ProblemMeta)
    (solved : List String) : List Recommendation :=
  (sortBy' strLe untried).flatMap (fun t =>
    ((catalog.filter (fun p =>
        decide (p.topic = t) && decide (p.difficulty = Difficulty.easy) &&
        !(solved.contains p.problem_id))).take 1).map (mkRec .exploration))

/-- Modelled from the spec: append one candidate to the selection if the
phase budget is not exhausted, its problem is unsolved, and its problem id
was not already selected; otherwise leave the selection unchanged. -/
def tryAdd (budget : Nat) (solved : List String) (acc : List Recommendation)
    (c : Recommendation) : List Recommendation :=
  if acc.length < budget ∧ c.problem_id ∉ solved ∧
      c.problem_id ∉ acc.map (fun r => r.problem_id)
  then acc ++ [c] else acc

/-- Assign 1-based ranks by final position. -/
def withRanks (l : List Recommendation) : List Recommendation :=
  l.enum.map (fun ir => { ir.2 with rank := ir.1 + 1 })

/-- Modelled from the spec: the Recommendation Engine (backend `recommender`
module absent).  Strategy 1 fills up to 60% of the budget rounded up, then
strategies 2 and 3 fill the remainder, in fixed order; no solved problem and
no duplicate problem id is ever selected, and at most `maxRecs` entries are
returned, ranked 1-based. -/
def recommend (profile : SkillProfile) (catalog : List ProblemMeta)
    (solved : List String) (maxRecs : Nat) : List Recommendation :=
  let wcap := min ((3 * maxRecs + 4) / 5) maxRecs
  let a1 := (weaknessCands profile.topics catalog solved).foldl
    (tryAdd wcap solved) []
  let a2 := (progressionCands profile.topics catalog solved).foldl
    (tryAdd maxRecs solved) a1
  let a3 := (explorationCands profile.untried_topics catalog solved).foldl
    (tryAdd maxRecs solved) a2
  withRanks a3

end RecSys

namespace Frontend

/-- One leaderboard row, as produced by the API service module. -/
structure LeaderboardEntry where
  rank : Nat
  username : String
  problems_solved : Nat
  total_score : Nat
  avatar : String
deriving DecidableEq, Repr

/-- The hard-coded demo leaderboard returned by `getLeaderboard` in the API
service module when the HTTP request rejects. -/
def demoLeaderboard : List LeaderboardEntry :=
  [ { rank := 1, username := "student_tharun", problems_solved := 42,
      total_score := 3850, avatar := "🦁" },
    { rank := 2, username := "student_vijay", problems_solved := 38,
      total_score := 3420, avatar := "🐯" },
    { rank := 3, username := "student_irfan", problems_solved := 35,
      total_score := 3180, avatar := "🐻" },
    { rank := 4, username := "student_jai", problems_solved := 30,
      total_score := 2750, avatar := "🦊" } ]

/-- The frontend `getLeaderboard` of the API service module: awaits the HTTP
GET for the given timeframe; on success returns the response data, on any
rejection catches the error and returns the fixed demo list.  The HTTP
outcome is passed explicitly as an `Except`. -/
def getLeaderboard (timeframe : String)
    (response : Except String (List LeaderboardEntry)) :
    List LeaderboardEntry :=
  let _ := timeframe
  match response with
  | .ok data => data
  | .error _ => demoLeaderboard

/-- The stats object consumed by the StatsDashboard component; every field
may be missing (the component merges it over a defaults object by spread). -/
structure StatsInput where
  problems_solved : Option Nat
  total_submissions : Option Nat
  accuracy : Option ℚ
  avg_score : Option ℚ
  easy_solved : Option Nat
  medium_solved : Option Nat
  hard_solved : Option Nat
deriving DecidableEq, Repr

/-- The defaults object of StatsDashboard after the spread merge: every
missing field becomes its default (0). -/
structure StatsMerged where
  problems_solved : Nat
  total_submissions : Nat
  accuracy : ℚ
  avg_score : ℚ
  easy_solved : Nat
  medium_solved : Nat
  hard_solved : Nat
deriving DecidableEq, Repr

/-- The `defaultStats` merge of StatsDashboard (`{...defaults, ...stats}`). -/
def defaultStats (s : StatsInput) : StatsMerged :=
  { problems_solved := s.problems_solved.getD 0
    total_submissions := s.total_submissions.getD 0
    accuracy := s.accuracy.getD 0
    avg_score := s.avg_score.getD 0
    easy_solved := s.easy_solved.getD 0
    medium_solved := s.medium_solved.getD 0
    hard_solved := s.hard_solved.getD 0 }

/-- The JavaScript `n || 1` on a count: 1 when the count is falsy (0). -/
def jsOrOne (n : Nat) : Nat := if n = 0 then 1 else n

/-- The `getDifficultyProgress` helper of StatsDashboard:
`total = defaultStats.problems_solved || 1`, then each per-difficulty
progress is `(count / total) * 100`, returned as (easy, medium, hard). -/
def getDifficultyProgress (s : StatsInput) : ℚ × ℚ × ℚ :=
  let d := defaultStats s
  let total := jsOrOne d.problems_solved
  ( ((d.easy_solved : ℚ) / (total : ℚ)) * 100,
    ((d.medium_solved : ℚ) / (total : ℚ)) * 100,
    ((d.hard_solved : ℚ) / (total : ℚ)) * 100 )

end Frontend

open RecSys Frontend

/-- A small concrete catalog used to exercise the engine. -/
def sampleCatalog : List ProblemMeta :=
  [ { problem_id := "a1", topic := "arrays", difficulty := .easy,
      expected_complexity := "O(n)", expected_time_minutes := 15 },
    { problem_id := "g1", topic := "graphs", difficulty := .easy,
      expected_complexity := "O(n)", expected_time_minutes := 15 },
    { problem_id := "t1", topic := "trees", difficulty := .easy,
      expected_complexity := "O(n)", expected_time_minutes := 15 } ]

/-- A concrete failed submission used to exercise the Scorer. -/
def sampleFailedSubmission : Submission :=
  { user_id := "u", problem_id := "a1", topic := "arrays", difficulty := .easy,
    passed := false, attempts := 2, time_taken_minutes := 10,
    reported_complexity := "O(1)", submitted_at := 0 }

/-- A concrete catalog entry matching the sample submission. -/
def sampleMeta : ProblemMeta :=
  { problem_id := "a1", topic := "arrays", difficulty := .easy,
    expected_complexity := "O(n)", expected_time_minutes := 15 }

/-- The first exploration recommendation the engine produces on
`sampleCatalog` for a brand-new user with "g1" already solved. -/
def sampleRec : Recommendation :=
  { problem_id := "a1", topic := "arrays", difficulty := .easy,
    reason := .exploration, rank := 1 }

/-- A submission with only its time-taken field changed. -/
def setTime (s : Submission) (t : ℚ) : Submission :=
  { s with time_taken_minutes := t }

lemma efficiencyScore_mem (p : Bool) (lw : Nat) :
    0 ≤ efficiencyScore p lw ∧ efficiencyScore p lw ≤ 1 := by
  unfold efficiencyScore
  split_ifs <;> norm_num

lemma speedScore_mem (r : ℚ) : 1/10 ≤ speedScore r ∧ speedScore r ≤ 1 := by
  unfold speedScore
  split_ifs with h1 h2 h3
  · norm_num
  · push_neg at h1
    constructor <;> linarith
  · push_neg at h1 h2
    constructor <;> linarith
  · push_neg at h1 h2 h3
    refine ⟨le_max_left _ _, max_le (by norm_num) (by linarith)⟩

lemma attemptsScore_mem (n : Nat) :
    0 ≤ attemptsScore n ∧ attemptsScore n ≤ 1 := by
  unfold attemptsScore
  split_ifs <;> norm_num

lemma round_mem_of_mem {x : ℚ} (h0 : 0 ≤ x) (h1 : x ≤ 100) :
    0 ≤ round x ∧ round x ≤ 100 := by
  constructor
  · rw [round_eq]
    exact Int.floor_nonneg.mpr (by linarith)
  · rw [round_eq]
    have hm : (⌊x + 1/2⌋ : ℤ) ≤ ⌊(100:ℚ) + 1/2⌋ := Int.floor_le_floor (by linarith)
    have he : (⌊(100:ℚ) + 1/2⌋ : ℤ) = 100 := by
      rw [Int.floor_eq_iff]
      norm_num
    rw [he] at hm
    exact hm

lemma clamped_round_eq {c e sp a : ℚ}
    (hc : 0 ≤ c ∧ c ≤ 1) (he : 0 ≤ e ∧ e ≤ 1)
    (hsp : 0 ≤ sp ∧ sp ≤ 1) (ha : 0 ≤ a ∧ a ≤ 1) :
    max 0 (min 100 (round (100 * (35/100 * c + 30/100 * e + 20/100 * sp + 15/100 * a)))) =
      round (100 * (35/100 * c + 30/100 * e + 20/100 * sp + 15/100 * a)) := by
  obtain ⟨hr0, hr1⟩ := round_mem_of_mem
    (show (0:ℚ) ≤ 100 * (35/100 * c + 30/100 * e + 20/100 * sp + 15/100 * a) by linarith)
    (show (100 * (35/100 * c + 30/100 * e + 20/100 * sp + 15/100 * a) : ℚ) ≤ 100 by linarith)
  rw [min_eq_right hr1, max_eq_right hr0]

/-- C7: `rank` is total on complexity strings, strictly increasing along the
canonical ladder `O(1) < O(log n) < … < O(n!)`, and every string off the
ladder maps to the sentinel rank exactly one greater than `rank "O(n!)"`
instead of failing. -/
theorem rank_ladder_strict_and_sentinel :
    List.Pairwise (· < ·) (complexityLadder.map rank) ∧
    ∀ s : String, s ∉ complexityLadder → rank s = rank "O(n!)" + 1 := by
  constructor
  · decide
  · intro s hs
    simp only [complexityLadder, List.mem_cons, List.not_mem_nil, or_false,
      not_or] at hs
    obtain ⟨h1, h2, h3, h4, h5, h6, h7, h8, h9⟩ := hs
    simp only [rank, if_neg h1, if_neg h2, if_neg h3, if_neg h4, if_neg h5,
      if_neg h6, if_neg h7, if_neg h8, if_neg h9]
    decide

/-- Witness for C7: the unrecognized string "O(n^5)" gets the sentinel rank. -/
theorem rank_ladder_strict_and_sentinel_witness :
    rank "O(n^5)" = rank "O(n!)" + 1 :=
  rank_ladder_strict_and_sentinel.2 "O(n^5)" (by decide)

/-- C4: for every submission with `passed = false` and every matching
problem metadata, the Scorer assigns `efficiency = 0`, regardless of the
reported and expected complexity. -/
theorem scorer_failed_efficiency_zero (s : Submission) (p : ProblemMeta)
    (h : s.passed = false) : (scoreSubmission s p).efficiency = 0 := by
  simp [scoreSubmission, efficiencyScore, h]

/-- Witness for C4 at a concrete failed submission. -/
theorem scorer_failed_efficiency_zero_witness :
    (scoreSubmission sampleFailedSubmission sampleMeta).efficiency = 0 :=
  scorer_failed_efficiency_zero sampleFailedSubmission sampleMeta rfl

/-- C2: for every submission and matching problem metadata, the Scorer's
total equals `round (100 * (0.35·correctness + 0.30·efficiency + 0.20·speed
+ 0.15·attempts_score))` and lies in `[0, 100]`. -/
theorem scorer_total_formula_and_range (s : Submission) (p : ProblemMeta) :
    (scoreSubmission s p).total =
      round (100 * (35/100 * (scoreSubmission s p).correctness +
        30/100 * (scoreSubmission s p).efficiency +
        20/100 * (scoreSubmission s p).speed +
        15/100 * (scoreSubmission s p).attempts_score)) ∧
    0 ≤ (scoreSubmission s p).total ∧ (scoreSubmission s p).total ≤ 100 := by
  have hc : 0 ≤ (if s.passed then (1:ℚ) else 0) ∧
      (if s.passed then (1:ℚ) else 0) ≤ 1 := by split <;> norm_num
  have he := efficiencyScore_mem s.passed
    (levelsWorse s.reported_complexity p.expected_complexity)
  have hsp' := speedScore_mem (timeRatio s p)
  have hsp : 0 ≤ speedScore (timeRatio s p) ∧ speedScore (timeRatio s p) ≤ 1 :=
    ⟨le_trans (by norm_num) hsp'.1, hsp'.2⟩
  have ha := attemptsScore_mem s.attempts
  have heq := clamped_round_eq hc he hsp ha
  simp only [scoreSubmission]
  refine ⟨heq, ?_, ?_⟩
  · exact le_max_left _ _
  · exact max_le (by norm_num) (le_trans (min_le_left _ _) le_rfl)

lemma speedScore_half {r : ℚ} (h : r ≤ 1/2) : speedScore r = 1 := by
  unfold speedScore
  rw [if_pos h]

lemma speedScore_interp1 {r : ℚ} (h1 : 1/2 < r) (h2 : r ≤ 1) :
    speedScore r = 1 - (2/5) * (r - 1/2) := by
  unfold speedScore
  rw [if_neg (not_le.mpr h1), if_pos h2]

lemma speedScore_interp2 {r : ℚ} (h1 : 1 < r) (h2 : r ≤ 2) :
    speedScore r = 4/5 - (3/10) * (r - 1) := by
  unfold speedScore
  rw [if_neg (not_le.mpr (by linarith)), if_neg (not_le.mpr h1), if_pos h2]

lemma speedScore_tail {r : ℚ} (h : 2 < r) :
    speedScore r = max (1/10) (1/2 - (1/5) * (r - 2)) := by
  unfold speedScore
  rw [if_neg (not_le.mpr (by linarith)), if_neg (not_le.mpr (by linarith)),
    if_neg (not_le.mpr h)]

lemma speedScore_anti {r1 r2 : ℚ} (h : r1 ≤ r2) :
    speedScore r2 ≤ speedScore r1 := by
  rcases le_or_lt r2 (1/2) with h2a | h2a
  · rw [speedScore_half (le_trans h h2a), speedScore_half h2a]
  · rcases le_or_lt r2 1 with h2b | h2b
    · rw [speedScore_interp1 h2a h2b]
      rcases le_or_lt r1 (1/2) with h1a | h1a
      · rw [speedScore_half h1a]; linarith
      · rw [speedScore_interp1 h1a (le_trans h h2b)]; linarith
    · rcases le_or_lt r2 2 with h2c | h2c
      · rw [speedScore_interp2 h2b h2c]
        rcases le_or_lt r1 (1/2) with h1a | h1a
        · rw [speedScore_half h1a]; linarith
        · rcases le_or_lt r1 1 with h1b | h1b
          · rw [speedScore_interp1 h1a h1b]; linarith
          · rw [speedScore_interp2 h1b (le_trans h h2c)]; linarith
      · rw [speedScore_tail h2c]
        rcases le_or_lt r1 (1/2) with h1a | h1a
        · rw [speedScore_half h1a]
          exact max_le (by norm_num) (by linarith)
        · rcases le_or_lt r1 1 with h1b | h1b
          · rw [speedScore_interp1 h1a h1b]
            exact max_le (by linarith) (by linarith)
          · rcases le_or_lt r1 2 with h1c | h1c
            · rw [speedScore_interp2 h1b h1c]
              exact max_le (by linarith) (by linarith)
            · rw [speedScore_tail h1c]
              exact max_le (le_max_left _ _) (le_max_of_le_right (by linarith))

lemma speedScore_one : speedScore 1 = 4/5 := by
  norm_num [speedScore]

lemma speedScore_two : speedScore 2 = 1/2 := by
  norm_num [speedScore]

/-- C8: the Scorer's speed score is monotonically non-increasing in the time
ratio — for two submissions to the same problem differing only in time taken,
the slower one never scores strictly higher — and it respects the anchors:
ratio `≤ 0.5` gives 1, ratio 1 gives 0.8, ratio 2 gives 0.5, with a clamped
floor of 0.1. -/
theorem scorer_speed_monotone_anchors :
    (∀ (s : Submission) (p : ProblemMeta) (t1 t2 : ℚ), t1 ≤ t2 →
      (scoreSubmission (setTime s t2) p).speed ≤
        (scoreSubmission (setTime s t1) p).speed) ∧
    (∀ r1 r2 : ℚ, r1 ≤ r2 → speedScore r2 ≤ speedScore r1) ∧
    (∀ r : ℚ, r ≤ 1/2 → speedScore r = 1) ∧
    speedScore 1 = 4/5 ∧ speedScore 2 = 1/2 ∧
    (∀ r : ℚ, 1/10 ≤ speedScore r) := by
  refine ⟨?_, fun r1 r2 h => speedScore_anti h, fun r h => speedScore_half h,
    speedScore_one, speedScore_two, fun r => (speedScore_mem r).1⟩
  intro s p t1 t2 h
  show speedScore (timeRatio (setTime s t2) p) ≤
    speedScore (timeRatio (setTime s t1) p)
  apply speedScore_anti
  unfold timeRatio setTime
  split_ifs with hle
  · exact le_rfl
  · push_neg at hle
    exact div_le_div_of_nonneg_right h hle.le

/-- Witness for C8: concrete applications of the monotonicity and anchors. -/
theorem scorer_speed_monotone_anchors_witness :
    (scoreSubmission (setTime sampleFailedSubmission 20) sampleMeta).speed ≤
      (scoreSubmission (setTime sampleFailedSubmission 10) sampleMeta).speed ∧
    speedScore 3 ≤ speedScore 1 ∧ speedScore (1/4) = 1 :=
  ⟨scorer_speed_monotone_anchors.1 sampleFailedSubmission sampleMeta 10 20
      (by norm_num),
   scorer_speed_monotone_anchors.2.1 1 3 (by norm_num),
   scorer_speed_monotone_anchors.2.2.1 (1/4) (by norm_num)⟩

lemma analyzeTopics_map_topic (history : List (Submission × ProblemMeta)) :
    (analyzeTopics history).map (fun tp => tp.topic) =
      (history.map (fun g => g.1.topic)).dedup := by
  unfold analyzeTopics
  rw [List.map_map]
  exact List.map_id' _

lemma analyzeTopics_topic_nodup (history : List (Submission × ProblemMeta)) :
    ((analyzeTopics history).map (fun tp => tp.topic)).Nodup := by
  rw [analyzeTopics_map_topic]
  exact List.nodup_dedup _

lemma isWeak_isStrong_false (tp : TopicProfile) (hw : isWeak tp = true)
    (hs : isStrong tp = true) : False := by
  simp only [isWeak, isStrong, decide_eq_true_eq] at hw hs
  obtain ⟨h7, h70⟩ := hs
  rcases hw.2 with hacc | hsc
  · linarith
  · linarith

/-- C5: in every SkillProfile produced by the Performance Analyzer, no topic
is classified both weak and strong — the intersection of the two topic lists
is empty. -/
theorem analyzer_weak_strong_disjoint (history : List (Submission × ProblemMeta))
    (catalog : List ProblemMeta) :
    (analyze history catalog).weak_topics ∩
      (analyze history catalog).strong_topics = [] := by
  have hw : (analyze history catalog).weak_topics =
      ((analyzeTopics history).filter isWeak).map (fun tp => tp.topic) := rfl
  have hs : (analyze history catalog).strong_topics =
      ((analyzeTopics history).filter isStrong).map (fun tp => tp.topic) := rfl
  rw [hw, hs, List.eq_nil_iff_forall_not_mem]
  intro t ht
  rw [List.mem_inter_iff] at ht
  obtain ⟨htw, hts⟩ := ht
  obtain ⟨tp1, h1, e1⟩ := List.mem_map.mp htw
  obtain ⟨tp2, h2, e2⟩ := List.mem_map.mp hts
  rw [List.mem_filter] at h1 h2
  have heq : tp1 = tp2 :=
    List.inj_on_of_nodup_map (analyzeTopics_topic_nodup history) h1.1 h2.1
      (e1.trans e2.symm)
  exact isWeak_isStrong_false tp2 (heq ▸ h1.2) h2.2

/-- C6: on an empty submission history the Analyzer returns a profile with no
topic entries, overall score 0, skill level beginner, and untried topics equal
(as a set) to all topics appearing in the catalog — a normal return value,
not an error. -/
theorem analyzer_empty_history (catalog : List ProblemMeta) :
    (analyze [] catalog).topics = [] ∧
    (analyze [] catalog).overall_score = 0 ∧
    (analyze [] catalog).skill_level = SkillLevel.beginner ∧
    ∀ t : String, t ∈ (analyze [] catalog).untried_topics ↔
      t ∈ catalog.map (fun p => p.topic) := by
  refine ⟨rfl, rfl, ?_, ?_⟩
  · show skillLevelOf 0 = SkillLevel.beginner
    unfold skillLevelOf
    rw [if_pos (show (0:ℚ) < 40 by norm_num)]
  · intro t
    show t ∈ ((catalog.map (fun p => p.topic)).dedup).filter
        (fun t => decide (t ∉ (([] : List (Submission × ProblemMeta)).map
          (fun g => g.1.topic)).dedup)) ↔ t ∈ catalog.map (fun p => p.topic)
    simp [List.mem_filter, List.mem_dedup]

/-- The selection invariant maintained through the engine's phases: the
selection fits the budget, avoids solved problems, and has no duplicate
problem id. -/
def selInv (budget : Nat) (solved : List String)
    (acc : List Recommendation) : Prop :=
  acc.length ≤ budget ∧
  (∀ r ∈ acc, r.problem_id ∉ solved) ∧
  (acc.map (fun r => r.problem_id)).Nodup

lemma tryAdd_inv {budget : Nat} {solved : List String}
    {acc : List Recommendation} (c : Recommendation)
    (h : selInv budget solved acc) :
    selInv budget solved (tryAdd budget solved acc c) := by
  obtain ⟨hlen, hsolv, hnd⟩ := h
  unfold tryAdd
  split_ifs with hc
  · obtain ⟨h1, h2, h3⟩ := hc
    refine ⟨?_, ?_, ?_⟩
    · rw [List.length_append, List.length_singleton]
      omega
    · intro r hr
      rcases List.mem_append.mp hr with hr | hr
      · exact hsolv r hr
      · rw [List.mem_singleton] at hr
        rw [hr]
        exact h2
    · rw [List.map_append]
      refine ((List.perm_append_singleton _ _).nodup_iff).mpr ?_
      exact List.nodup_cons.mpr ⟨h3, hnd⟩
  · exact ⟨hlen, hsolv, hnd⟩

lemma foldl_tryAdd_inv {budget : Nat} {solved : List String}
    (cands : List Recommendation) :
    ∀ acc : List Recommendation, selInv budget solved acc →
      selInv budget solved (cands.foldl (tryAdd budget solved) acc) := by
  induction cands with
  | nil => exact fun acc h => h
  | cons c cs ih =>
    intro acc h
    exact ih _ (tryAdd_inv c h)

lemma selInv_mono {b1 b2 : Nat} {solved : List String}
    {acc : List Recommendation} (hb : b1 ≤ b2)
    (h : selInv b1 solved acc) : selInv b2 solved acc :=
  ⟨le_trans h.1 hb, h.2.1, h.2.2⟩

lemma withRanks_map_id (l : List Recommendation) :
    (withRanks l).map (fun r => r.problem_id) =
      l.map (fun r => r.problem_id) := by
  unfold withRanks
  rw [List.map_map]
  have h : l.enum.map ((fun r => r.problem_id) ∘
      (fun ir : Nat × Recommendation => { ir.2 with rank := ir.1 + 1 })) =
      l.enum.map ((fun r => r.problem_id) ∘ Prod.snd) := rfl
  rw [h, ← List.map_map, List.enum_map_snd]

lemma withRanks_length (l : List Recommendation) :
    (withRanks l).length = l.length := by
  unfold withRanks
  rw [List.length_map, List.enum_length]

/-- C1: for every skill profile, catalog, solved set and budget, the
Recommendation Engine returns at most `maxRecs` entries, never a solved
problem id, and never the same problem id twice. -/
theorem recommend_budget_solved_nodup (profile : SkillProfile)
    (catalog : List ProblemMeta) (solved : List String) (maxRecs : Nat) :
    (recommend profile catalog solved maxRecs).length ≤ maxRecs ∧
    (∀ r ∈ recommend profile catalog solved maxRecs,
      r.problem_id ∉ solved) ∧
    ((recommend profile catalog solved maxRecs).map
      (fun r => r.problem_id)).Nodup := by
  have h0 : selInv (min ((3 * maxRecs + 4) / 5) maxRecs) solved [] :=
    ⟨by simp, by simp, by simp⟩
  have h1 := foldl_tryAdd_inv (weaknessCands profile.topics catalog solved) [] h0
  have h1' := selInv_mono (min_le_right _ _) h1
  have h2 := foldl_tryAdd_inv (progressionCands profile.topics catalog solved)
    _ h1'
  have h3 := foldl_tryAdd_inv (explorationCands profile.untried_topics catalog
    solved) _ h2
  obtain ⟨hl, hsv, hnd⟩ := h3
  have hrec : recommend profile catalog solved maxRecs =
      withRanks ((explorationCands profile.untried_topics catalog solved).foldl
        (tryAdd maxRecs solved)
        ((progressionCands profile.topics catalog solved).foldl
          (tryAdd maxRecs solved)
          ((weaknessCands profile.topics catalog solved).foldl
            (tryAdd (min ((3 * maxRecs + 4) / 5) maxRecs) solved) []))) := rfl
  rw [hrec]
  refine ⟨?_, ?_, ?_⟩
  · rw [withRanks_length]
    exact hl
  · intro r hr
    have hm : r.problem_id ∈ (withRanks _).map (fun r => r.problem_id) :=
      List.mem_map_of_mem _ hr
    rw [withRanks_map_id] at hm
    obtain ⟨r', hr', he⟩ := List.mem_map.mp hm
    rw [← he]
    exact hsv r' hr'
  · rw [withRanks_map_id]
    exact hnd

/-- Witness for C1: on a concrete catalog with "g1" already solved, the
engine's first pick is a member of the output and its problem id is not in
the solved set. -/
theorem recommend_budget_solved_nodup_witness :
    sampleRec.problem_id ∉ ["g1"] :=
  (recommend_budget_solved_nodup (analyze [] sampleCatalog) sampleCatalog
    ["g1"] 5).2.1 sampleRec (by decide)

/-- C3: the Recommendation Engine is deterministic — two calls on equal
skill profiles, catalogs, solved sets and budgets return equal output lists
(problem ids, order, ranks and reason codes all included). -/
theorem recommend_deterministic (p1 p2 : SkillProfile)
    (c1 c2 : List ProblemMeta) (s1 s2 : List String) (m1 m2 : Nat)
    (hp : p1 = p2) (hc : c1 = c2) (hs : s1 = s2) (hm : m1 = m2) :
    recommend p1 c1 s1 m1 = recommend p2 c2 s2 m2 := by
  rw [hp, hc, hs, hm]

/-- Witness for C3 at concrete inputs. -/
theorem recommend_deterministic_witness :
    recommend (analyze [] sampleCatalog) sampleCatalog ["g1"] 5 =
      recommend (analyze [] sampleCatalog) sampleCatalog ["g1"] 5 :=
  recommend_deterministic (analyze [] sampleCatalog) (analyze [] sampleCatalog)
    sampleCatalog sampleCatalog ["g1"] ["g1"] 5 5 rfl rfl rfl rfl

/-- C9: the frontend `getLeaderboard` never propagates a failure — on any
rejected request it returns the fixed four-entry demo list (ranks 1..4), on
success it returns the data unchanged, and a failed fetch is therefore
indistinguishable from a successful fetch that returned the demo list. -/
theorem getLeaderboard_fallback (timeframe : String) (err : String)
    (data : List LeaderboardEntry) :
    getLeaderboard timeframe (Except.error err) = demoLeaderboard ∧
    demoLeaderboard.length = 4 ∧
    demoLeaderboard.map (fun e => e.rank) = [1, 2, 3, 4] ∧
    demoLeaderboard.map (fun e => e.username) =
      ["student_tharun", "student_vijay", "student_irfan", "student_jai"] ∧
    getLeaderboard timeframe (Except.ok data) = data ∧
    getLeaderboard timeframe (Except.error err) =
      getLeaderboard timeframe (Except.ok demoLeaderboard) :=
  ⟨rfl, rfl, rfl, rfl, rfl, rfl⟩

/-- C10: the StatsDashboard per-difficulty progress is always defined — the
denominator is positive for every stats input (1 when `problems_solved` is 0
or missing), and each component equals
`(count_at_difficulty / max(problems_solved, 1)) * 100`. -/
theorem difficulty_progress_defined (s : StatsInput) :
    0 < jsOrOne (defaultStats s).problems_solved ∧
    (getDifficultyProgress s).1 =
      ((defaultStats s).easy_solved : ℚ) /
        ((max (defaultStats s).problems_solved 1 : Nat) : ℚ) * 100 ∧
    (getDifficultyProgress s).2.1 =
      ((defaultStats s).medium_solved : ℚ) /
        ((max (defaultStats s).problems_solved 1 : Nat) : ℚ) * 100 ∧
    (getDifficultyProgress s).2.2 =
      ((defaultStats s).hard_solved : ℚ) /
        ((max (defaultStats s).problems_solved 1 : Nat) : ℚ) * 100 := by
  have hmax : jsOrOne (defaultStats s).problems_solved =
      max (defaultStats s).problems_solved 1 := by
    unfold jsOrOne
    split_ifs with h <;> omega
  refine ⟨?_, ?_, ?_, ?_⟩
  · rw [hmax]
    omega
  · simp only [getDifficultyProgress, hmax]
  · simp only [getDifficultyProgress, hmax]
  · simp only [getDifficultyProgress, hmax]
